import Mathlib

/-!
LifeGrid: the goal-countdown generator and the rasterizer guard.

A shallow embedding of `src/worker/src/generators/goal.js`
(`generateGoalCountdown`), of the device table of `src/data/devices.js`
and of `initializeWasm` from `src/worker/src/index.js`.

Conventions of the embedding.

* JavaScript numbers that the generator computes from day counts are integers
  (`Int`); the quotients and the products with decimal literals (`0.45`,
  `0.25`, `progress`) are exact rationals (`ℚ`): rounding of binary floating
  point is not part of the model.
* A `Date` object is its time value, `some t` for `t` milliseconds since the
  epoch and `none` for an Invalid Date. Local time is UTC, as it is on the
  Workers runtime that `index.js` is written for, so `new Date(y, m, d)` is
  midnight UTC of that calendar day.
* `timezone.js` and `svg.js` are not part of the sources at hand.
  `getDateInTimezone(timezone)` reads the clock: its result is the parameter
  `today`. `getDaysBetween` is modelled from the specification. The drawing
  primitives are kept as constructors of `Fragment` that record their
  arguments in call order; what a primitive does with them is not modelled.
* The one call of the generator that can throw by itself is
  `decodeURIComponent(goalName)`; its URIError is an outcome of the model.
-/

namespace LifeGrid

/-! ## ECMAScript dates -/

/-- A Date object: its time value in milliseconds, `none` for an Invalid Date. -/
abbrev JSDate := Option Int

/-- The ECMAScript constant `msPerDay`. -/
def msPerDay : Int := 86400000

/-- ECMAScript `Day(t)`: the day number of a time value, `floor(t / msPerDay)`. -/
def Day (t : Int) : Int := t / msPerDay

/-- ECMAScript `DaysInYear(y) = 366`. -/
def isLeapYear (y : Int) : Bool :=
  (y % 4 == 0 && y % 100 != 0) || y % 400 == 0

/-- ECMAScript `DayFromYear(y)`: the day number of 1 January of year `y`. -/
def DayFromYear (y : Int) : Int :=
  365 * (y - 1970) + (y - 1969) / 4 - (y - 1901) / 100 + (y - 1601) / 400

/-- Days of the year that precede month `mn` (0 = January), the boundaries of
the ECMAScript `MonthFromTime` table. -/
def daysBeforeMonth (leap : Bool) (mn : Int) : Int :=
  let l : Int := if leap then 1 else 0
  if mn = 0 then 0
  else if mn = 1 then 31
  else if mn = 2 then 59 + l
  else if mn = 3 then 90 + l
  else if mn = 4 then 120 + l
  else if mn = 5 then 151 + l
  else if mn = 6 then 181 + l
  else if mn = 7 then 212 + l
  else if mn = 8 then 243 + l
  else if mn = 9 then 273 + l
  else if mn = 10 then 304 + l
  else 334 + l

/-- ECMAScript `MakeDay(year, month, date)` on integers: the month carries into
the year (`ym`, `mn`), and the day of the month is added to the day number of
the first of that month without any range check. -/
def MakeDay (year month date : Int) : Int :=
  let ym := year + month / 12
  let mn := month % 12
  DayFromYear ym + daysBeforeMonth (isLeapYear ym) mn + date - 1

/-- ECMAScript `TimeClip`: a time value beyond 8.64e15 ms is NaN. -/
def TimeClip (t : Int) : JSDate :=
  if |t| > 8640000000000000 then none else some t

/-- ECMAScript `MakeFullYear`: a year from 0 to 99 means 1900 + year. -/
def MakeFullYear (y : Int) : Int :=
  if 0 ≤ y ∧ y ≤ 99 then 1900 + y else y

/-- The constructor call `new Date(year, month, day)`; an argument that is NaN
(`none`) gives an Invalid Date. -/
def newDate (year month day : Option Int) : JSDate :=
  match year, month, day with
  | some y, some m, some dt => TimeClip (MakeDay (MakeFullYear y) m dt * msPerDay)
  | _, _, _ => none

/-- The constructor call `new Date(value)` on a number: `TimeClip(value)`. -/
def newDateOfTime (value : Option Int) : JSDate :=
  value.bind TimeClip

/-! ## `goalDate.split('-').map(Number)` -/

/-- The method call `split('-')` on the characters of a string. -/
def splitDash : List Char → List (List Char)
  | [] => [[]]
  | c :: cs =>
    match splitDash cs with
    | [] => [[]]
    | p :: ps => if c = '-' then [] :: p :: ps else (c :: p) :: ps

/-- The value of a string of decimal digits, most significant first. -/
def digitsValue (cs : List Char) : Nat :=
  cs.foldl (fun acc c => 10 * acc + (c.toNat - '0'.toNat)) 0

/-- JavaScript `Number(s)` on the strings a date field can be: a string of
decimal digits is its value and the empty string is 0. Any other text is
`none`: there `Number` gives NaN, or the value of a literal form (sign,
fraction, exponent, radix, blanks) that this model does not cover. -/
def Number (s : List Char) : Option Int :=
  if s.all Char.isDigit then some (digitsValue s : Int) else none

/-- The array `goalDate.split('-').map(Number)`. -/
def goalFields (goalDate : String) : List (Option Int) :=
  (splitDash goalDate.toList).map Number

/-- Array destructuring: element `i`, NaN when the array is shorter
(`undefined` in arithmetic and as a Date argument is NaN). -/
def field (fields : List (Option Int)) (i : Nat) : Option Int :=
  (fields.get? i).join

/-! ## `timezone.js` -/

/-- The calendar date `{ year, month, day }` that `getDateInTimezone` returns;
`month` counts from 1. -/
structure CalendarDate where
  year : Int
  month : Int
  day : Int
deriving DecidableEq

/-- Days of month `month` (1 to 12) of year `year`. -/
def daysInMonth (year month : Int) : Int :=
  if month = 2 then (if isLeapYear year then 29 else 28)
  else if month = 4 ∨ month = 6 ∨ month = 9 ∨ month = 11 then 30
  else 31

/-- The invariant of a calendar date: `month` in 1..12 and `day` in
1..days-in-month. -/
def CalendarDate.valid (d : CalendarDate) : Prop :=
  1 ≤ d.month ∧ d.month ≤ 12 ∧ 1 ≤ d.day ∧ d.day ≤ daysInMonth d.year d.month

/-- The invariant of a calendar date is decidable. -/
instance CalendarDate.decidableValid (d : CalendarDate) : Decidable d.valid := by
  unfold CalendarDate.valid; infer_instance

/-- Modelled from the spec: `getDaysBetween` of `timezone.js`, which is not
among the sources. The specification gives "the signed count of whole calendar
days from dateA to dateB (positive if dateB is later)", exact across leap years
and independent of the time of day: the difference of the two day numbers. For
an Invalid Date operand the specification gives no count (`none`). -/
def getDaysBetween (dateA dateB : JSDate) : Option Int :=
  match dateA, dateB with
  | some a, some b => some (Day b - Day a)
  | _, _ => none

/-! ## `decodeURIComponent`

The built-in follows ECMAScript `Decode`. A string is its list of characters;
a character beyond the basic plane stands for its surrogate pair, which
`Decode` copies unchanged. -/

/-- The value of a hexadecimal digit, `none` for any other character. -/
def hexDigit (c : Char) : Option Nat :=
  if '0' ≤ c ∧ c ≤ '9' then some (c.toNat - '0'.toNat)
  else if 'a' ≤ c ∧ c ≤ 'f' then some (c.toNat - 'a'.toNat + 10)
  else if 'A' ≤ c ∧ c ≤ 'F' then some (c.toNat - 'A'.toNat + 10)
  else none

/-- ECMAScript `ParseHexOctet`: the byte written by two hexadecimal digits. -/
def ParseHexOctet (a b : Char) : Option Nat :=
  match hexDigit a, hexDigit b with
  | some h, some l => some (16 * h + l)
  | _, _ => none

/-- One step of the scan of ECMAScript `Decode`: a character as it stands, or
the byte of an escape `%XX`. -/
inductive UriToken where
  | unit (c : Char)
  | octet (B : Nat)
deriving DecidableEq

/-- The scan of `Decode` from left to right: every `%` must be followed by two
hexadecimal digits, otherwise the result is `none` (a URIError). -/
def uriTokens : List Char → Option (List UriToken)
  | [] => some []
  | c :: rest =>
    if c = '%' then
      match rest with
      | a :: b :: rest2 =>
        match ParseHexOctet a b, uriTokens rest2 with
        | some B, some ts => some (UriToken.octet B :: ts)
        | _, _ => none
      | _ => none
    else (uriTokens rest).map (UriToken.unit c :: ·)

/-- A continuation byte of UTF-8, `10xxxxxx`. -/
def isContinuation (B : Nat) : Bool := 0x80 ≤ B && B < 0xC0

/-- The code point of a two-byte UTF-8 sequence, `none` when the sequence is
not well formed. -/
def utf8Two (B1 B2 : Nat) : Option Char :=
  let cp := (B1 - 0xC0) * 64 + (B2 - 0x80)
  if isContinuation B2 && 0x80 ≤ cp then some (Char.ofNat cp) else none

/-- The code point of a three-byte UTF-8 sequence, `none` when the sequence is
overlong, encodes a surrogate or is otherwise not well formed. -/
def utf8Three (B1 B2 B3 : Nat) : Option Char :=
  let cp := (B1 - 0xE0) * 4096 + (B2 - 0x80) * 64 + (B3 - 0x80)
  if isContinuation B2 && isContinuation B3 && 0x800 ≤ cp && !(0xD800 ≤ cp && cp ≤ 0xDFFF)
  then some (Char.ofNat cp) else none

/-- The code point of a four-byte UTF-8 sequence, `none` when the sequence is
overlong, beyond U+10FFFF or otherwise not well formed. -/
def utf8Four (B1 B2 B3 B4 : Nat) : Option Char :=
  let cp := (B1 - 0xF0) * 262144 + (B2 - 0x80) * 4096 + (B3 - 0x80) * 64 + (B4 - 0x80)
  if isContinuation B2 && isContinuation B3 && isContinuation B4 && 0x10000 ≤ cp && cp ≤ 0x10FFFF
  then some (Char.ofNat cp) else none

/-- The body of `Decode` on the scanned string: a byte below 0x80 is its
character; a lead byte with 2, 3 or 4 leading one bits must be followed at once
by that many escapes less one, the bytes forming well-formed UTF-8; any other
byte is a URIError (`none`). -/
def decodeTokens : List UriToken → Option (List Char)
  | [] => some []
  | UriToken.unit c :: ts => (decodeTokens ts).map (c :: ·)
  | UriToken.octet B :: ts =>
    if B < 0x80 then (decodeTokens ts).map (Char.ofNat B :: ·)
    else if 0xC0 ≤ B ∧ B < 0xE0 then
      match ts with
      | UriToken.octet B2 :: ts2 =>
        match utf8Two B B2, decodeTokens ts2 with
        | some c, some cs => some (c :: cs)
        | _, _ => none
      | _ => none
    else if 0xE0 ≤ B ∧ B < 0xF0 then
      match ts with
      | UriToken.octet B2 :: UriToken.octet B3 :: ts2 =>
        match utf8Three B B2 B3, decodeTokens ts2 with
        | some c, some cs => some (c :: cs)
        | _, _ => none
      | _ => none
    else if 0xF0 ≤ B ∧ B < 0xF8 then
      match ts with
      | UriToken.octet B2 :: UriToken.octet B3 :: UriToken.octet B4 :: ts2 =>
        match utf8Four B B2 B3 B4, decodeTokens ts2 with
        | some c, some cs => some (c :: cs)
        | _, _ => none
      | _ => none
    else none

/-- JavaScript `decodeURIComponent(s)`: the decoded string, or `none` when the
call throws a URIError (a `%` without two hexadecimal digits, or escapes that
are not well-formed UTF-8). -/
def decodeURIComponent (s : String) : Option String :=
  ((uriTokens s.toList).bind decodeTokens).map String.mk

/-! ## `svg.js`: the drawing primitives, as recorded calls -/

/-- A colour argument of a primitive: the calls `parseColor(input)` and
`colorWithAlpha(base, alpha)`, or a string literal of the source. -/
inductive Color where
  | parseColor (input : String)
  | colorWithAlpha (base : String) (alpha : ℚ)
  | literal (value : String)
deriving DecidableEq

/-- The options object passed to `text`. -/
structure TextStyle where
  fill : Color
  fontSize : ℚ
  fontWeight : String
  textAnchor : String
  dominantBaseline : String
deriving DecidableEq

/-- The string argument of `text`: a literal, `daysRemaining.toString()`,
the value of `decodeURIComponent(goalName)` recorded by its argument, or the
`toLocaleDateString` of the target date with the long month, the numeric day
and the numeric year. -/
inductive Label where
  | literal (value : String)
  | number (n : Int)
  | decodeURIComponent (encoded : String)
  | toLocaleDateString (date : JSDate)
deriving DecidableEq

/-- One fragment appended to `content`: a call of `rect`, `circle`, `arc` or
`text` with its arguments, or the inline `<circle ... stroke=... />` template
of the background ring. -/
inductive Fragment where
  | rect (x y w h : ℚ) (fill : Color)
  | circle (cx cy r : ℚ) (fill : Color)
  | ring (cx cy r : ℚ) (stroke : Color) (strokeWidth : ℚ)
  | arc (cx cy r startAngle endAngle : ℚ) (stroke : Color) (strokeWidth : ℚ)
  | text (x y : ℚ) (content : Label) (style : TextStyle)
deriving DecidableEq

/-- The call `createSVG(width, height, content)`. -/
structure VectorDocument where
  width : ℚ
  height : ℚ
  content : List Fragment
deriving DecidableEq

/-! ## `generators/goal.js` -/

/-- The fields of `options` that `generateGoalCountdown` destructures;
`goalDate` and `goalName` may be absent. -/
structure GoalOptions where
  width : ℚ
  height : ℚ
  bgColor : String
  accentColor : String
  timezone : String
  goalDate : Option String
  goalName : Option String

/-- Line 108: the caption of the goal day ("today's the day"). -/
def captionToday : String := "Today's the day! 🎯"

/-- Line 110: the caption of the last week ("final stretch"). -/
def captionFinalStretch : String := "Almost there! Final stretch."

/-- Line 112: the caption "less than a month". -/
def captionLessThanMonth : String := "Less than a month to go!"

/-- Line 114: the caption "progress". -/
def captionProgress : String := "Making great progress."

/-- Line 116: the caption "stay focused". -/
def captionStayFocused : String := "Stay focused. Every day counts."

/-- Lines 33-34: `Math.max(0, getDaysBetween(now, targetDate))`, on the value
that `getDaysBetween` returned. -/
def daysRemaining (between : Int) : Int := max 0 between

/-- Line 37: `Math.max(daysRemaining + 1, 365)`. -/
def totalDays (daysRemaining : Int) : Int := max (daysRemaining + 1) 365

/-- Line 38: `totalDays - daysRemaining`. -/
def daysElapsed (daysRemaining : Int) : Int := totalDays daysRemaining - daysRemaining

/-- Line 39: `Math.min(1, daysElapsed / totalDays)`. -/
def progress (daysRemaining : Int) : ℚ :=
  min 1 ((daysElapsed daysRemaining : ℚ) / (totalDays daysRemaining : ℚ))

/-- Line 60: `progress * 360`. -/
def endAngle (daysRemaining : Int) : ℚ := progress daysRemaining * 360

/-- Lines 106-117: the motivational caption. -/
def motivation (daysRemaining : Int) : String :=
  if daysRemaining = 0 then captionToday
  else if daysRemaining ≤ 7 then captionFinalStretch
  else if daysRemaining ≤ 30 then captionLessThanMonth
  else if daysRemaining ≤ 100 then captionProgress
  else captionStayFocused

/-- Line 47: `width / 2`, the horizontal centre of the ring. -/
def centerX (width : ℚ) : ℚ := width / 2

/-- Line 48: `height * 0.45`, the vertical centre of the ring. -/
def centerY (height : ℚ) : ℚ := height * (45 / 100)

/-- Line 51: `width * 0.25`, the radius of the ring. -/
def radius (width : ℚ) : ℚ := width * (25 / 100)

/-- Line 52: `width * 0.03`, the stroke width of the ring and of the arc. -/
def strokeWidth (width : ℚ) : ℚ := width * (3 / 100)

/-- Lines 58-62: the accent arc, appended only when `progress > 0`. -/
def progressArc (o : GoalOptions) (daysRemaining : Int) : List Fragment :=
  if progress daysRemaining > 0 then
    [Fragment.arc (centerX o.width) (centerY o.height) (radius o.width) 0
      (endAngle daysRemaining) (Color.parseColor o.accentColor) (strokeWidth o.width)]
  else []

/-- Lines 41-127: the document built from the target date and the days
remaining, fragment by fragment in the order of the source. -/
def compose (o : GoalOptions) (targetDate : JSDate) (daysRemaining : Int) : VectorDocument :=
  let width := o.width
  let height := o.height
  let white (alpha : ℚ) := Color.colorWithAlpha "#ffffff" alpha
  let style (fill : Color) (fontSize : ℚ) (fontWeight : String) : TextStyle :=
    { fill := fill, fontSize := fontSize, fontWeight := fontWeight,
      textAnchor := "middle", dominantBaseline := "middle" }
  { width := width
    height := height
    content :=
      [Fragment.rect 0 0 width height (Color.parseColor o.bgColor),
       Fragment.circle (centerX width) (centerY height) (radius width) (Color.literal "none"),
       Fragment.ring (centerX width) (centerY height) (radius width) (white (1 / 10))
         (strokeWidth width)]
      ++ progressArc o daysRemaining
      ++ [Fragment.text (centerX width) (centerY height - height * (2 / 100))
            (Label.number daysRemaining)
            (style (Color.parseColor o.accentColor) (width * (18 / 100)) "700"),
          Fragment.text (centerX width) (centerY height + height * (6 / 100))
            (Label.literal (if daysRemaining = 1 then "day" else "days"))
            (style (white (6 / 10)) (width * (4 / 100)) "400"),
          Fragment.text (centerX width) (height * (72 / 100))
            (Label.decodeURIComponent (o.goalName.getD "Goal"))
            (style (Color.literal "#ffffff") (width * (5 / 100)) "600"),
          Fragment.text (centerX width) (height * (78 / 100))
            (Label.toLocaleDateString targetDate)
            (style (white (4 / 10)) (width * (3 / 100)) "400"),
          Fragment.text (centerX width) (height * (88 / 100))
            (Label.literal (motivation daysRemaining))
            (style (white (3 / 10)) (width * (25 / 1000)) "400")] }

/-- Lines 19-21: `now`, the Date of the calendar date `today` that
`getDateInTimezone(timezone)` returned. -/
def now (today : CalendarDate) : JSDate :=
  newDate (some today.year) (some (today.month - 1)) (some today.day)

/-- Lines 23-31: the target date. A `goalDate` that is absent or the empty
string is falsy and gives the default, 30 days of milliseconds after `now`. -/
def targetDate (today : CalendarDate) (goalDate : Option String) : JSDate :=
  match goalDate with
  | some s =>
    if s = "" then newDateOfTime ((now today).map (· + 30 * 24 * 60 * 60 * 1000))
    else
      let fields := goalFields s
      newDate (field fields 0) ((field fields 1).map (· - 1)) (field fields 2)
  | none => newDateOfTime ((now today).map (· + 30 * 24 * 60 * 60 * 1000))

/-- Lines 19-34: the constant `daysRemaining` of a call, `none` where
`getDaysBetween` has no value in this model. -/
def computeDaysRemaining (today : CalendarDate) (goalDate : Option String) : Option Int :=
  (getDaysBetween (now today) (targetDate today goalDate)).map daysRemaining

/-- How a call of `generateGoalCountdown` ends: it returns the document of
`createSVG`, or `decodeURIComponent(goalName)` of line 83 throws a URIError
that nothing catches, or the model does not determine it (`getDaysBetween`
has no value). -/
inductive Outcome where
  | returns (document : VectorDocument)
  | throwsURIError
  | undetermined
deriving DecidableEq

/-- The function `generateGoalCountdown(options)`, with the calendar date that
`getDateInTimezone(options.timezone)` returns as the parameter `today`. The
dates and `daysRemaining` are computed first (lines 19-39); the fragments are
then appended in order, and the call `decodeURIComponent(goalName)` among them
either returns or throws. -/
def generateGoalCountdown (today : CalendarDate) (options : GoalOptions) : Outcome :=
  match computeDaysRemaining today options.goalDate with
  | none => Outcome.undetermined
  | some daysRemaining =>
    match decodeURIComponent (options.goalName.getD "Goal") with
    | none => Outcome.throwsURIError
    | some _ =>
      Outcome.returns (compose options (targetDate today options.goalDate) daysRemaining)

/-- The options of the worked examples: an iPhone 15 Pro canvas. -/
def sampleOptions (goalDate : Option String) : GoalOptions :=
  { width := 1179, height := 2556, bgColor := "#000000", accentColor := "#ff6b35",
    timezone := "Asia/Kolkata", goalDate := goalDate, goalName := some "Launch" }

/-- The outer radius of the background ring and of the accent arc: the radius
plus half the stroke width. -/
def outerRadius (width : ℚ) : ℚ := radius width + strokeWidth width / 2

/-- The stroked ring of a `width` by `height` canvas lies inside the rectangle
`[0, width] x [0, height]`. -/
def ringInsideCanvas (width height : ℚ) : Prop :=
  0 ≤ centerY height - outerRadius width ∧ centerY height + outerRadius width ≤ height ∧
  0 ≤ centerX width - outerRadius width ∧ centerX width + outerRadius width ≤ width

/-! ## `data/devices.js` -/

/-- An entry of the device table; `width` and `height` are `null` for the
entry "Custom". -/
structure Device where
  name : String
  width : Option Nat
  height : Option Nat
  category : String
deriving DecidableEq

/-- The array `devices`. -/
def devices : List Device :=
  [ ⟨"iPhone 15 Pro Max", some 1290, some 2796, "iPhone"⟩,
    ⟨"iPhone 15 Pro / 15", some 1179, some 2556, "iPhone"⟩,
    ⟨"iPhone 14 Plus / 13 Pro Max", some 1284, some 2778, "iPhone"⟩,
    ⟨"iPhone 14 / 13 / 12", some 1170, some 2532, "iPhone"⟩,
    ⟨"iPhone SE (3rd gen)", some 750, some 1334, "iPhone"⟩,
    ⟨"Samsung Galaxy S24 Ultra", some 1440, some 3120, "Android"⟩,
    ⟨"Samsung Galaxy S24", some 1080, some 2340, "Android"⟩,
    ⟨"Google Pixel 8 Pro", some 1344, some 2992, "Android"⟩,
    ⟨"Google Pixel 8", some 1080, some 2400, "Android"⟩,
    ⟨"OnePlus 12", some 1440, some 3168, "Android"⟩,
    ⟨"iPad Pro 12.9\"", some 2048, some 2732, "iPad"⟩,
    ⟨"iPad Pro 11\"", some 1668, some 2388, "iPad"⟩,
    ⟨"iPad Air", some 1640, some 2360, "iPad"⟩,
    ⟨"MacBook Pro 14\"", some 3024, some 1964, "Desktop"⟩,
    ⟨"4K Desktop", some 3840, some 2160, "Desktop"⟩,
    ⟨"1080p Desktop", some 1920, some 1080, "Desktop"⟩,
    ⟨"Custom", none, none, "Custom"⟩ ]

/-! ## `index.js`: `initializeWasm` under the event loop

An `async` function runs without interruption up to an `await`; the rest of
its body runs in a later turn of the event loop, after the awaited promise has
settled, and other handlers may run in between. A call of `initializeWasm` is
therefore two atomic segments: the test of the flag together with the call of
`initWasm`, and the assignment `wasmInitialized = true`. -/

/-- Where one call of `initializeWasm` stands: not yet entered, suspended at
`await initWasm(resvgWasm)`, or returned. -/
inductive CallState where
  | pending
  | awaiting
  | returned
deriving DecidableEq

/-- The module state: the flag `wasmInitialized`, how many times `initWasm`
has been invoked, and the calls of `initializeWasm` made by the requests. -/
structure WasmState where
  wasmInitialized : Bool
  initWasmCalls : Nat
  calls : List CallState
deriving DecidableEq

/-- A fresh process in which `n` requests will call `initializeWasm`. -/
def WasmState.fresh (n : Nat) : WasmState :=
  { wasmInitialized := false, initWasmCalls := 0, calls := List.replicate n CallState.pending }

/-- The next segment of call `i`. Entering the function tests
`!wasmInitialized`: when the flag is unset it invokes `initWasm` and suspends
at the `await`, otherwise it returns. Resuming after the `await` sets the
flag and returns. -/
def WasmState.step (s : WasmState) (i : Nat) : WasmState :=
  match s.calls.get? i with
  | some CallState.pending =>
    if !s.wasmInitialized then
      { s with initWasmCalls := s.initWasmCalls + 1, calls := s.calls.set i CallState.awaiting }
    else
      { s with calls := s.calls.set i CallState.returned }
  | some CallState.awaiting =>
    { s with wasmInitialized := true, calls := s.calls.set i CallState.returned }
  | _ => s

/-- An interleaving: the calls whose next segment runs, in order. -/
def WasmState.run (s : WasmState) (schedule : List Nat) : WasmState :=
  schedule.foldl WasmState.step s

/-! ## Auxiliary facts about dates -/

/-- The day number of midnight of day `D` is `D`, also 30 days of milliseconds
later. -/
theorem Day_midnight (D : Int) :
    Day (D * msPerDay) = D ∧ Day (D * msPerDay + 30 * 24 * 60 * 60 * 1000) = D + 30 := by
  unfold Day msPerDay
  constructor <;> omega

/-- The day number is monotone in the time value. -/
theorem Day_mono (a b : Int) (h : a ≤ b) : Day a ≤ Day b := by
  unfold Day msPerDay
  omega

/-- A valid calendar date has a day of the month from 1 to 31. -/
theorem CalendarDate.day_le_31 (t : CalendarDate) (hv : t.valid) : 1 ≤ t.day ∧ t.day ≤ 31 := by
  obtain ⟨_, _, h1, h2⟩ := hv
  refine ⟨h1, le_trans h2 ?_⟩
  unfold daysInMonth
  split_ifs <;> decide

/-- The days before a month 0..11 are between 0 and 335. -/
theorem daysBeforeMonth_bounds (leap : Bool) (mn : Int) (h0 : 0 ≤ mn) (h11 : mn ≤ 11) :
    0 ≤ daysBeforeMonth leap mn ∧ daysBeforeMonth leap mn ≤ 335 := by
  interval_cases mn <;> cases leap <;> decide

/-- The two-digit-year rule keeps a year within the range of years. -/
theorem MakeFullYear_bounds (y : Int) (hy : -271820 ≤ y ∧ y ≤ 275759) :
    -271820 ≤ MakeFullYear y ∧ MakeFullYear y ≤ 275759 := by
  unfold MakeFullYear; split_ifs <;> omega

/-- The day number of a day 1..31 of a month 0..11 of a year from -271820 to
275759 is more than 30 days inside the range of time values. -/
theorem MakeDay_bounds (y m d : Int) (hy : -271820 ≤ y ∧ y ≤ 275759)
    (hm : 0 ≤ m ∧ m ≤ 11) (hd : 1 ≤ d ∧ d ≤ 31) :
    -99999970 ≤ MakeDay y m d ∧ MakeDay y m d ≤ 99999970 := by
  have hdiv : m / 12 = 0 := by omega
  have hb := daysBeforeMonth_bounds (isLeapYear (y + m / 12)) (m % 12) (by omega) (by omega)
  unfold MakeDay DayFromYear
  simp only [hdiv, add_zero] at hb ⊢
  omega

/-- For a valid calendar date of a year from -271820 to 275759 the Date `now`
is valid, is midnight of its day number, and stays in range 30 days later. -/
theorem now_in_range (t : CalendarDate) (hv : t.valid)
    (hy : -271820 ≤ t.year ∧ t.year ≤ 275759) :
    ∃ D : Int, now t = some (D * msPerDay) ∧
      TimeClip (D * msPerDay + 30 * 24 * 60 * 60 * 1000) =
        some (D * msPerDay + 30 * 24 * 60 * 60 * 1000) := by
  have hd := t.day_le_31 hv
  obtain ⟨hm1, hm12, _, _⟩ := hv
  have hD := MakeDay_bounds (MakeFullYear t.year) (t.month - 1) t.day
    (MakeFullYear_bounds t.year hy) ⟨by omega, by omega⟩ hd
  refine ⟨MakeDay (MakeFullYear t.year) (t.month - 1) t.day, ?_, ?_⟩
  · unfold now newDate TimeClip
    simp only
    rw [if_neg]
    rw [not_lt, abs_le]; unfold msPerDay; omega
  · unfold TimeClip
    rw [if_neg]
    rw [not_lt, abs_le]; unfold msPerDay; omega

/-! ## Auxiliary facts about the progress -/

/-- The five captions are pairwise different strings. -/
theorem captions_distinct :
    captionToday ≠ captionFinalStretch ∧ captionToday ≠ captionLessThanMonth ∧
    captionToday ≠ captionProgress ∧ captionToday ≠ captionStayFocused ∧
    captionFinalStretch ≠ captionLessThanMonth ∧ captionFinalStretch ≠ captionProgress ∧
    captionFinalStretch ≠ captionStayFocused ∧ captionLessThanMonth ≠ captionProgress ∧
    captionLessThanMonth ≠ captionStayFocused ∧ captionProgress ≠ captionStayFocused := by
  decide

/-- The denominator `totalDays` is positive. -/
theorem totalDays_pos (d : Int) : 0 < totalDays d := by
  unfold totalDays; omega

/-- Below 365 days remaining the denominator is the floor 365. -/
theorem totalDays_of_le (d : Int) (h : d ≤ 364) : totalDays d = 365 := by
  unfold totalDays; omega

/-- From 364 days remaining on the denominator is `daysRemaining + 1`. -/
theorem totalDays_of_ge (d : Int) (h : 364 ≤ d) : totalDays d = d + 1 := by
  unfold totalDays; omega

/-- The quotient `daysElapsed / totalDays` is at most 1 for a non-negative
count, so `Math.min(1, ·)` returns it unchanged. -/
theorem progress_eq_div (d : Int) (h : 0 ≤ d) :
    progress d = (daysElapsed d : ℚ) / (totalDays d : ℚ) := by
  unfold progress
  apply min_eq_right
  have hpos : (0 : ℚ) < (totalDays d : ℚ) := by exact_mod_cast totalDays_pos d
  rw [div_le_one hpos]
  have : daysElapsed d ≤ totalDays d := by unfold daysElapsed; omega
  exact_mod_cast this

/-- Up to 364 days remaining the progress is `(365 - daysRemaining) / 365`. -/
theorem progress_of_le (d : Int) (h0 : 0 ≤ d) (h : d ≤ 364) :
    progress d = (365 - (d : ℚ)) / 365 := by
  rw [progress_eq_div d h0]
  unfold daysElapsed
  rw [totalDays_of_le d h]
  push_cast
  rfl

/-- From 364 days remaining on the progress is `1 / (daysRemaining + 1)`. -/
theorem progress_of_ge (d : Int) (h : 364 ≤ d) :
    progress d = 1 / ((d : ℚ) + 1) := by
  rw [progress_eq_div d (by omega)]
  unfold daysElapsed
  rw [totalDays_of_ge d h]
  push_cast
  congr 1
  ring

/-- The progress of a non-negative count is positive. -/
theorem progress_pos (d : Int) (h : 0 ≤ d) : 0 < progress d := by
  rw [progress_eq_div d h]
  have hpos : (0 : ℚ) < (totalDays d : ℚ) := by exact_mod_cast totalDays_pos d
  have he : (0 : ℚ) < (daysElapsed d : ℚ) := by
    have : 0 < daysElapsed d := by unfold daysElapsed totalDays; omega
    exact_mod_cast this
  exact div_pos he hpos

/-- The progress is capped at 1. -/
theorem progress_le_one (d : Int) : progress d ≤ 1 := by
  unfold progress; exact min_le_left _ _

/-- The progress is 1 exactly when no day remains. -/
theorem progress_eq_one_iff (d : Int) (h : 0 ≤ d) : progress d = 1 ↔ d = 0 := by
  rw [progress_eq_div d h]
  have hpos : (0 : ℚ) < (totalDays d : ℚ) := by exact_mod_cast totalDays_pos d
  rw [div_eq_one_iff_eq (ne_of_gt hpos)]
  unfold daysElapsed
  constructor
  · intro heq
    have : totalDays d - d = totalDays d := by exact_mod_cast heq
    omega
  · intro hd
    subst hd
    simp

/-- With a positive progress the accent arc is the one fragment appended. -/
theorem progressArc_of_pos (o : GoalOptions) (d : Int) (h : 0 < progress d) :
    progressArc o d =
      [Fragment.arc (centerX o.width) (centerY o.height) (radius o.width) 0
        (progress d * 360) (Color.parseColor o.accentColor) (strokeWidth o.width)] := by
  unfold progressArc endAngle
  rw [if_pos h]

/-! ## Auxiliary facts about the generator and the ring -/

/-- With both Dates valid the constant `daysRemaining` is the clamped
difference of the two day numbers. -/
theorem computeDaysRemaining_of_dates (today : CalendarDate) (g : Option String) (a b : Int)
    (ha : now today = some a) (hb : targetDate today g = some b) :
    computeDaysRemaining today g = some (daysRemaining (Day b - Day a)) := by
  unfold computeDaysRemaining
  simp only [ha, hb, getDaysBetween, Option.map_some']

/-- With both Dates valid and a `goalName` that decodes, the generator returns
the document composed from the target date and the clamped difference of the
two day numbers. -/
theorem generateGoalCountdown_of_dates (today : CalendarDate) (o : GoalOptions) (a b : Int)
    (name : String) (ha : now today = some a) (hb : targetDate today o.goalDate = some b)
    (hn : decodeURIComponent (o.goalName.getD "Goal") = some name) :
    generateGoalCountdown today o =
      Outcome.returns (compose o (some b) (daysRemaining (Day b - Day a))) := by
  unfold generateGoalCountdown
  simp only [computeDaysRemaining_of_dates today o.goalDate a b ha hb, hn, hb]

/-- With both Dates valid and a `goalName` that does not decode, the call
throws the URIError of line 83. -/
theorem generateGoalCountdown_of_malformed_name (today : CalendarDate) (o : GoalOptions)
    (a b : Int) (ha : now today = some a) (hb : targetDate today o.goalDate = some b)
    (hn : decodeURIComponent (o.goalName.getD "Goal") = none) :
    generateGoalCountdown today o = Outcome.throwsURIError := by
  unfold generateGoalCountdown
  simp only [computeDaysRemaining_of_dates today o.goalDate a b ha hb, hn]

/-- The built-in `decodeURIComponent` on sample names: plain text and
well-formed escapes decode; a lone `%`, a truncated or overlong sequence and
an encoded surrogate throw. -/
theorem decodeURIComponent_examples :
    decodeURIComponent "Launch" = some "Launch" ∧
    decodeURIComponent "Goal" = some "Goal" ∧
    decodeURIComponent "My%20Goal%21" = some "My Goal!" ∧
    decodeURIComponent "%E2%9C%93" = some "✓" ∧
    decodeURIComponent "100%" = none ∧
    decodeURIComponent "%E2%9C" = none ∧
    decodeURIComponent "%C0%80" = none ∧
    decodeURIComponent "%ED%A0%80" = none := by
  decide

/-- On 25 November 2025 the goal name "100%" with the goal date "2025-12-25"
ends the call with the URIError, the goal name "Launch" with a document. -/
theorem generateGoalCountdown_goalName_examples :
    generateGoalCountdown ⟨2025, 11, 25⟩
      { sampleOptions (some "2025-12-25") with goalName := some "100%" } =
        Outcome.throwsURIError ∧
    generateGoalCountdown ⟨2025, 11, 25⟩ (sampleOptions (some "2025-12-25")) =
      Outcome.returns (compose (sampleOptions (some "2025-12-25")) (some 1766620800000) 30) := by
  constructor
  · exact generateGoalCountdown_of_malformed_name _ _ 1764028800000 1766620800000
      (by decide) (by decide) (by decide)
  · rw [generateGoalCountdown_of_dates ⟨2025, 11, 25⟩ _ 1764028800000 1766620800000 "Launch"
      (by decide) (by decide) (by decide)]
    rfl

/-- The outer radius of the ring is `0.265 * width`. -/
theorem outerRadius_eq (w : ℚ) : outerRadius w = 265 / 1000 * w := by
  unfold outerRadius radius strokeWidth; ring

/-- On a canvas of natural width and height the ring is inside the canvas
exactly when `53 * width <= 90 * height`. -/
theorem ringInsideCanvas_iff (w h : ℕ) : ringInsideCanvas w h ↔ 53 * w ≤ 90 * h := by
  have hw : (0 : ℚ) ≤ (w : ℚ) := Nat.cast_nonneg w
  have hh : (0 : ℚ) ≤ (h : ℚ) := Nat.cast_nonneg h
  unfold ringInsideCanvas
  rw [outerRadius_eq]
  unfold centerX centerY
  constructor
  · rintro ⟨h1, -, -, -⟩
    have h2 : (53 : ℚ) * w ≤ 90 * h := by linarith
    exact_mod_cast h2
  · intro h1
    have h2 : (53 : ℚ) * w ≤ 90 * h := by exact_mod_cast h1
    refine ⟨?_, ?_, ?_, ?_⟩ <;> linarith

/-! ## The claims -/

/-- C1: for every integer `daysRemaining >= 0` the caption is the first match
of the ascending inclusive thresholds: "today's the day" iff it is 0, "final
stretch" iff 1..7, "less than a month" iff 8..30, "progress" iff 31..100,
"stay focused" iff at least 101; the values 0, 1, 7, 8, 30, 31, 100, 101, 500
map to captions 1, 2, 2, 3, 3, 4, 4, 5, 5; and that caption is the string of the
last text fragment of the document. -/
theorem motivation_threshold_table (d : Int) (h : 0 ≤ d) :
    ((motivation d = captionToday ↔ d = 0) ∧
     (motivation d = captionFinalStretch ↔ 1 ≤ d ∧ d ≤ 7) ∧
     (motivation d = captionLessThanMonth ↔ 8 ≤ d ∧ d ≤ 30) ∧
     (motivation d = captionProgress ↔ 31 ≤ d ∧ d ≤ 100) ∧
     (motivation d = captionStayFocused ↔ 101 ≤ d)) ∧
    (motivation 0 = captionToday ∧ motivation 1 = captionFinalStretch ∧
     motivation 7 = captionFinalStretch ∧ motivation 8 = captionLessThanMonth ∧
     motivation 30 = captionLessThanMonth ∧ motivation 31 = captionProgress ∧
     motivation 100 = captionProgress ∧ motivation 101 = captionStayFocused ∧
     motivation 500 = captionStayFocused) ∧
    (∀ (o : GoalOptions) (t : JSDate),
      (compose o t d).content.getLast? =
        some (Fragment.text (centerX o.width) (o.height * (88 / 100))
          (Label.literal (motivation d))
          { fill := Color.colorWithAlpha "#ffffff" (3 / 10), fontSize := o.width * (25 / 1000),
            fontWeight := "400", textAnchor := "middle", dominantBaseline := "middle" })) := by
  refine ⟨?_, by decide, ?_⟩
  · obtain ⟨h1, h2, h3, h4, h5, h6, h7, h8, h9, h10⟩ := captions_distinct
    unfold motivation
    split_ifs <;>
      simp only [h1, h2, h3, h4, h5, h6, h7, h8, h9, h10, h1.symm, h2.symm, h3.symm, h4.symm,
        h5.symm, h6.symm, h7.symm, h8.symm, h9.symm, h10.symm, false_iff, true_iff] <;>
      omega
  · intro o t
    have hlast : ∀ (l : List Fragment) (a b c e x : Fragment),
        (l ++ [a, b, c, e, x]).getLast? = some x := by
      intro l a b c e x
      rw [show l ++ [a, b, c, e, x] = (l ++ [a, b, c, e]) ++ [x] by simp]
      exact List.getLast?_concat _
    exact hlast _ _ _ _ _ _

/-- C1 at `daysRemaining = 8`, the first value of the "less than a month" band. -/
theorem motivation_threshold_table_witness :
    (0 : Int) ≤ 8 ∧ (motivation 8 = captionLessThanMonth ↔ (8 : Int) ≤ 8 ∧ (8 : Int) ≤ 30) :=
  ⟨by decide, (motivation_threshold_table 8 (by decide)).1.2.2.1⟩

/-- C3: for every integer `daysRemaining >= 0`, `totalDays` is
`max(daysRemaining + 1, 365)`, `daysElapsed` is `totalDays - daysRemaining`,
`progress` is `min(1, daysElapsed / totalDays)`, which as a rational is
`(365 - daysRemaining) / 365` up to 364 days and `1 / (daysRemaining + 1)` from
364 days on, and the accent arc of the document runs from 0 to
`progress * 360` degrees. -/
theorem progress_closed_form (d : Int) (h : 0 ≤ d) :
    totalDays d = max (d + 1) 365 ∧
    daysElapsed d = totalDays d - d ∧
    progress d = min 1 ((daysElapsed d : ℚ) / (totalDays d : ℚ)) ∧
    (d ≤ 364 → progress d = (365 - (d : ℚ)) / 365) ∧
    (364 ≤ d → progress d = 1 / ((d : ℚ) + 1)) ∧
    endAngle d = progress d * 360 ∧
    (∀ (o : GoalOptions) (t : JSDate),
      Fragment.arc (centerX o.width) (centerY o.height) (radius o.width) 0 (progress d * 360)
        (Color.parseColor o.accentColor) (strokeWidth o.width) ∈ (compose o t d).content) := by
  refine ⟨rfl, rfl, rfl, progress_of_le d h, progress_of_ge d, rfl, ?_⟩
  intro o t
  unfold compose
  simp [progressArc_of_pos o d (progress_pos d h)]

/-- C3 at `daysRemaining = 364`, where the two closed forms meet. -/
theorem progress_closed_form_witness :
    (0 : Int) ≤ 364 ∧ progress 364 = (365 - ((364 : Int) : ℚ)) / 365 ∧
      progress 364 = 1 / (((364 : Int) : ℚ) + 1) :=
  ⟨by decide, (progress_closed_form 364 (by decide)).2.2.2.1 (by decide),
    (progress_closed_form 364 (by decide)).2.2.2.2.1 (by decide)⟩

/-- C9 as stated fails: with 365 days remaining the progress is `1 / 366`, not
the half-full `1 / 2` claimed for a goal set two years out. -/
theorem progress_365_not_half : progress 365 = 1 / 366 ∧ progress 365 ≠ 1 / 2 := by
  have h : progress 365 = 1 / 366 := by
    rw [progress_of_ge 365 (by decide)]; norm_num
  exact ⟨h, by rw [h]; norm_num⟩

/-- C9 amended: progress is a function of `daysRemaining` alone; with 365 days
remaining the arc is nearly empty (`1 / 366`) whenever the goal was set, with
730 days remaining it is `1 / 731`, and no value of `daysRemaining` gives a
half-full arc. -/
theorem progress_never_half :
    progress 365 = 1 / 366 ∧ progress 730 = 1 / 731 ∧ ∀ d : Int, progress d ≠ 1 / 2 := by
  refine ⟨?_, ?_, ?_⟩
  · rw [progress_of_ge 365 (by decide)]; norm_num
  · rw [progress_of_ge 730 (by decide)]; norm_num
  · intro d hd
    rcases lt_or_le d 0 with hneg | hnn
    · have h1 : progress d = 1 := by
        unfold progress
        apply min_eq_left
        have hpos : (0 : ℚ) < (totalDays d : ℚ) := by exact_mod_cast totalDays_pos d
        rw [one_le_div hpos]
        have : totalDays d ≤ daysElapsed d := by unfold daysElapsed; omega
        exact_mod_cast this
      rw [h1] at hd
      norm_num at hd
    · rcases le_or_lt d 364 with hle | hgt
      · rw [progress_of_le d hnn hle] at hd
        have h2 : (2 : ℚ) * (365 - (d : ℚ)) = 365 := by
          field_simp at hd
          linarith
        have h3 : 2 * (365 - d) = 365 := by exact_mod_cast h2
        omega
      · rw [progress_of_ge d (by omega)] at hd
        have hne : ((d : ℚ) + 1) ≠ 0 := by
          have : (0 : ℚ) ≤ (d : ℚ) := by exact_mod_cast hnn
          linarith
        have h2 : (d : ℚ) + 1 = 2 := by
          field_simp at hd
          linarith
        have h3 : d + 1 = 2 := by exact_mod_cast h2
        omega

/-- C10: for every integer `daysRemaining >= 0`, `daysElapsed` is at least 1
and at most `totalDays`, the cap `min(1, ·)` leaves the quotient unchanged,
`0 < progress <= 1` with `progress = 1` iff `daysRemaining = 0`, the guard
`progress > 0` holds so the accent arc is emitted, its end angle lies in
`(0, 360]` and is 360 iff `daysRemaining = 0`, which for the clamped count
means on the goal day or after it. -/
theorem progress_arc_always_drawn (d : Int) (h : 0 ≤ d) :
    1 ≤ daysElapsed d ∧ daysElapsed d ≤ totalDays d ∧
    progress d = (daysElapsed d : ℚ) / (totalDays d : ℚ) ∧
    0 < progress d ∧ progress d ≤ 1 ∧ (progress d = 1 ↔ d = 0) ∧
    (∀ o : GoalOptions, progressArc o d =
      [Fragment.arc (centerX o.width) (centerY o.height) (radius o.width) 0 (endAngle d)
        (Color.parseColor o.accentColor) (strokeWidth o.width)]) ∧
    0 < endAngle d ∧ endAngle d ≤ 360 ∧ (endAngle d = 360 ↔ d = 0) ∧
    (∀ between : Int, endAngle (daysRemaining between) = 360 ↔ between ≤ 0) := by
  have hiff : ∀ e : Int, 0 ≤ e → (endAngle e = 360 ↔ e = 0) := by
    intro e he
    rw [← progress_eq_one_iff e he]
    unfold endAngle
    constructor
    · intro h1; linarith
    · intro h1; rw [h1]; norm_num
  refine ⟨by unfold daysElapsed totalDays; omega, by unfold daysElapsed; omega,
    progress_eq_div d h, progress_pos d h, progress_le_one d, progress_eq_one_iff d h,
    fun o => progressArc_of_pos o d (progress_pos d h), ?_, ?_, hiff d h, ?_⟩
  · unfold endAngle; have := progress_pos d h; linarith
  · unfold endAngle; have := progress_le_one d; linarith
  · intro between
    rw [hiff (daysRemaining between) (by unfold daysRemaining; omega)]
    unfold daysRemaining
    omega

/-- C10 at `daysRemaining = 0`: the arc is the full sweep of 360 degrees. -/
theorem progress_arc_always_drawn_witness :
    (0 : Int) ≤ 0 ∧ 0 < progress 0 ∧ (endAngle 0 = 360 ↔ (0 : Int) = 0) :=
  ⟨le_refl 0, (progress_arc_always_drawn 0 (le_refl 0)).2.2.2.1,
    (progress_arc_always_drawn 0 (le_refl 0)).2.2.2.2.2.2.2.2.2.1⟩

/-- C2: for every pair of valid Dates `now` and `targetDate`,
`getDaysBetween` is the difference of their day numbers and the constant
`daysRemaining` of the call is `max(0, getDaysBetween(now, targetDate))`; the
document that the call returns (when `goalName` decodes; otherwise line 83
throws a URIError) is composed with that count. The count is never negative,
is 0 when the target is today or in the past, and is the signed day difference
when the target is later than today. -/
theorem daysRemaining_is_clamped_difference (today : CalendarDate) (o : GoalOptions)
    (a b : Int) (ha : now today = some a) (hb : targetDate today o.goalDate = some b) :
    getDaysBetween (now today) (targetDate today o.goalDate) = some (Day b - Day a) ∧
    computeDaysRemaining today o.goalDate = some (max 0 (Day b - Day a)) ∧
    (∀ name, decodeURIComponent (o.goalName.getD "Goal") = some name →
      generateGoalCountdown today o =
        Outcome.returns (compose o (some b) (max 0 (Day b - Day a)))) ∧
    (decodeURIComponent (o.goalName.getD "Goal") = none →
      generateGoalCountdown today o = Outcome.throwsURIError) ∧
    daysRemaining (Day b - Day a) = max 0 (Day b - Day a) ∧
    0 ≤ daysRemaining (Day b - Day a) ∧
    (b ≤ a → daysRemaining (Day b - Day a) = 0) ∧
    (a < b → daysRemaining (Day b - Day a) = Day b - Day a) := by
  refine ⟨by rw [ha, hb]; rfl, computeDaysRemaining_of_dates today o.goalDate a b ha hb,
    fun name hn => generateGoalCountdown_of_dates today o a b name ha hb hn,
    generateGoalCountdown_of_malformed_name today o a b ha hb, rfl, ?_, ?_, ?_⟩
  · unfold daysRemaining; omega
  · intro h
    have := Day_mono b a h
    unfold daysRemaining; omega
  · intro h
    have := Day_mono a b (le_of_lt h)
    unfold daysRemaining; omega

/-- C2 on 25 November 2025 with the goal date 1 November 2025, 24 days in the
past: the count is clamped to 0 and the returned document shows 0. -/
theorem daysRemaining_is_clamped_difference_witness :
    now ⟨2025, 11, 25⟩ = some 1764028800000 ∧
    targetDate ⟨2025, 11, 25⟩ (sampleOptions (some "2025-11-01")).goalDate = some 1761955200000 ∧
    getDaysBetween (now ⟨2025, 11, 25⟩)
      (targetDate ⟨2025, 11, 25⟩ (sampleOptions (some "2025-11-01")).goalDate) =
        some (Day 1761955200000 - Day 1764028800000) ∧
    Day 1761955200000 - Day 1764028800000 = -24 ∧
    daysRemaining (Day 1761955200000 - Day 1764028800000) = 0 ∧
    generateGoalCountdown ⟨2025, 11, 25⟩ (sampleOptions (some "2025-11-01")) =
      Outcome.returns (compose (sampleOptions (some "2025-11-01")) (some 1761955200000)
        (max 0 (Day 1761955200000 - Day 1764028800000))) :=
  ⟨by decide, by decide,
    (daysRemaining_is_clamped_difference ⟨2025, 11, 25⟩ (sampleOptions (some "2025-11-01"))
      1764028800000 1761955200000 (by decide) (by decide)).1,
    by decide,
    (daysRemaining_is_clamped_difference ⟨2025, 11, 25⟩ (sampleOptions (some "2025-11-01"))
      1764028800000 1761955200000 (by decide) (by decide)).2.2.2.2.2.2.1 (by decide),
    (daysRemaining_is_clamped_difference ⟨2025, 11, 25⟩ (sampleOptions (some "2025-11-01"))
      1764028800000 1761955200000 (by decide) (by decide)).2.2.1 "Launch" (by decide)⟩

/-- C4: when `goalDate` is absent or empty the target date is 30 days of
milliseconds after `now`, and for every valid calendar date `today` (of a year
whose Dates are in range) the constant `daysRemaining` of the call is exactly
30; the document that the call returns (when `goalName` decodes; otherwise
line 83 throws a URIError) is composed with 30, whose caption is the "less
than a month" one. -/
theorem default_goal_is_thirty_days (today : CalendarDate) (o : GoalOptions)
    (hv : today.valid) (hy : -271820 ≤ today.year ∧ today.year ≤ 275759)
    (hg : o.goalDate = none ∨ o.goalDate = some "") :
    targetDate today o.goalDate = (now today).map (· + 30 * 24 * 60 * 60 * 1000) ∧
    (targetDate today o.goalDate).isSome ∧
    getDaysBetween (now today) (targetDate today o.goalDate) = some 30 ∧
    computeDaysRemaining today o.goalDate = some 30 ∧
    (∀ name, decodeURIComponent (o.goalName.getD "Goal") = some name →
      generateGoalCountdown today o =
        Outcome.returns (compose o (targetDate today o.goalDate) 30)) ∧
    (decodeURIComponent (o.goalName.getD "Goal") = none →
      generateGoalCountdown today o = Outcome.throwsURIError) ∧
    motivation 30 = captionLessThanMonth := by
  obtain ⟨D, hnow, hclip⟩ := now_in_range today hv hy
  have htarget : targetDate today o.goalDate = some (D * msPerDay + 30 * 24 * 60 * 60 * 1000) := by
    rcases hg with hg | hg <;> rw [hg] <;>
      simp only [targetDate, if_true, hnow, Option.map_some', newDateOfTime, Option.some_bind,
        hclip]
  obtain ⟨hD0, hD30⟩ := Day_midnight D
  have hdiff : Day (D * msPerDay + 30 * 24 * 60 * 60 * 1000) - Day (D * msPerDay) = 30 := by
    rw [hD0, hD30]; omega
  have hrem : daysRemaining (Day (D * msPerDay + 30 * 24 * 60 * 60 * 1000) - Day (D * msPerDay))
      = 30 := by
    rw [hdiff]; rfl
  refine ⟨by rw [htarget, hnow]; rfl, by rw [htarget]; rfl, ?_, ?_, ?_, ?_, by decide⟩
  · rw [hnow, htarget]
    simp only [getDaysBetween, hdiff]
  · rw [computeDaysRemaining_of_dates today o.goalDate _ _ hnow htarget, hrem]
  · intro name hn
    rw [generateGoalCountdown_of_dates today o _ _ name hnow htarget hn, hrem, htarget]
  · exact generateGoalCountdown_of_malformed_name today o _ _ hnow htarget

/-- C4 on 29 February 2024 with `goalDate` absent. -/
theorem default_goal_is_thirty_days_witness :
    (⟨2024, 2, 29⟩ : CalendarDate).valid ∧
    computeDaysRemaining ⟨2024, 2, 29⟩ (sampleOptions none).goalDate = some 30 ∧
    generateGoalCountdown ⟨2024, 2, 29⟩ (sampleOptions none) =
      Outcome.returns (compose (sampleOptions none)
        (targetDate ⟨2024, 2, 29⟩ (sampleOptions none).goalDate) 30) :=
  ⟨by decide,
    (default_goal_is_thirty_days ⟨2024, 2, 29⟩ (sampleOptions none) (by decide)
      ⟨by decide, by decide⟩ (Or.inl rfl)).2.2.2.1,
    (default_goal_is_thirty_days ⟨2024, 2, 29⟩ (sampleOptions none) (by decide)
      ⟨by decide, by decide⟩ (Or.inl rfl)).2.2.2.2.1 "Launch" (by decide)⟩

/-- C5 as stated fails: for `goalDate = "2025-12-25"` on 25 November 2025 the
generator returns the document with `daysRemaining = 30`, whose progress is
`335 / 365` and not `(395 - 30) / 395`. -/
theorem launch_example_progress_differs :
    generateGoalCountdown ⟨2025, 11, 25⟩ (sampleOptions (some "2025-12-25")) =
      Outcome.returns (compose (sampleOptions (some "2025-12-25")) (some 1766620800000) 30) ∧
    progress 30 = 335 / 365 ∧ progress 30 ≠ (395 - 30) / 395 := by
  have hp : progress 30 = 335 / 365 := by
    rw [progress_of_le 30 (by decide) (by decide)]; norm_num
  refine ⟨?_, hp, by rw [hp]; norm_num⟩
  rw [generateGoalCountdown_of_dates ⟨2025, 11, 25⟩ _ 1764028800000 1766620800000 "Launch"
    (by decide) (by decide) (by decide)]
  rfl

/-- C5 amended: for `goalDate = "2025-12-25"`, `goalName = "Launch"` and today
25 November 2025 the generator returns the document with `daysRemaining = 30`,
the "less than a month" caption, the decoded name "Launch", and an accent arc
from 0 to `progress * 360` degrees with
`progress = (365 - 30) / 365 = 67 / 73`. -/
theorem launch_example (o : GoalOptions) (hd : o.goalDate = some "2025-12-25")
    (hn : o.goalName = some "Launch") :
    generateGoalCountdown ⟨2025, 11, 25⟩ o =
      Outcome.returns (compose o (some 1766620800000) 30) ∧
    decodeURIComponent "Launch" = some "Launch" ∧
    motivation 30 = captionLessThanMonth ∧
    totalDays 30 = 365 ∧ daysElapsed 30 = 335 ∧
    progress 30 = (365 - 30) / 365 ∧ progress 30 = 67 / 73 ∧
    endAngle 30 = 67 / 73 * 360 ∧
    Fragment.arc (centerX o.width) (centerY o.height) (radius o.width) 0 (67 / 73 * 360)
      (Color.parseColor o.accentColor) (strokeWidth o.width) ∈
        (compose o (some 1766620800000) 30).content ∧
    Fragment.text (centerX o.width) (o.height * (72 / 100)) (Label.decodeURIComponent "Launch")
      { fill := Color.literal "#ffffff", fontSize := o.width * (5 / 100), fontWeight := "600",
        textAnchor := "middle", dominantBaseline := "middle" } ∈
        (compose o (some 1766620800000) 30).content := by
  have hp : progress 30 = 67 / 73 := by
    rw [progress_of_le 30 (by decide) (by decide)]; norm_num
  have hpos : 0 < progress 30 := by rw [hp]; norm_num
  refine ⟨?_, by decide, by decide, by decide, by decide, by rw [hp]; norm_num, hp,
    by unfold endAngle; rw [hp], ?_, ?_⟩
  · have ht : targetDate ⟨2025, 11, 25⟩ o.goalDate = some 1766620800000 := by
      rw [hd]; decide
    have hname : decodeURIComponent (o.goalName.getD "Goal") = some "Launch" := by
      rw [hn]; decide
    rw [generateGoalCountdown_of_dates ⟨2025, 11, 25⟩ o 1764028800000 1766620800000 "Launch"
      (by decide) ht hname]
    rfl
  · unfold compose
    simp [progressArc_of_pos o 30 hpos, hp]
  · unfold compose
    simp [hn]

/-- C5 amended, on the sample canvas. -/
theorem launch_example_witness :
    (sampleOptions (some "2025-12-25")).goalDate = some "2025-12-25" ∧
    (sampleOptions (some "2025-12-25")).goalName = some "Launch" ∧
    generateGoalCountdown ⟨2025, 11, 25⟩ (sampleOptions (some "2025-12-25")) =
      Outcome.returns (compose (sampleOptions (some "2025-12-25")) (some 1766620800000) 30) ∧
    progress 30 = 67 / 73 :=
  ⟨rfl, rfl, (launch_example (sampleOptions (some "2025-12-25")) rfl rfl).1,
    (launch_example (sampleOptions (some "2025-12-25")) rfl rfl).2.2.2.2.2.2.1⟩

/-- C6 as stated fails: on the 1920 x 1080 canvas of the entry "1080p Desktop"
the top of the ring is at `0.45 * 1080 - 0.265 * 1920 = -22.8`, above the
canvas. -/
theorem ring_exceeds_1080p_canvas :
    ⟨"1080p Desktop", some 1920, some 1080, "Desktop"⟩ ∈ devices ∧
    centerY 1080 - outerRadius 1920 = -(228 / 10) ∧
    ¬ ringInsideCanvas 1920 1080 := by
  have htop : centerY 1080 - outerRadius 1920 = -(228 / 10) := by
    rw [outerRadius_eq]; unfold centerY; norm_num
  refine ⟨by decide, htop, ?_⟩
  rintro ⟨h1, -⟩
  rw [htop] at h1
  norm_num at h1

/-- C6 amended: the ring has outer radius `0.265 * width`; on every canvas of
natural width and height it lies within the horizontal extent `[0, width]`, and
it lies inside the canvas `[0, width] x [0, height]` exactly when
`0.265 * width <= 0.45 * height`, that is `53 * width <= 90 * height`; among the
entries of the device table with a size this holds for all but "4K Desktop" and
"1080p Desktop". -/
theorem ring_inside_canvas_iff_tall_enough :
    (∀ w h : ℕ,
      outerRadius w = 265 / 1000 * w ∧
      0 ≤ centerX (w : ℚ) - outerRadius w ∧ centerX (w : ℚ) + outerRadius w ≤ w ∧
      (ringInsideCanvas w h ↔ (265 : ℚ) / 1000 * w ≤ 45 / 100 * h) ∧
      (ringInsideCanvas w h ↔ 53 * w ≤ 90 * h)) ∧
    (∀ dev ∈ devices, ∀ w h : ℕ, dev.width = some w → dev.height = some h →
      (ringInsideCanvas w h ↔ dev.name ≠ "4K Desktop" ∧ dev.name ≠ "1080p Desktop")) := by
  constructor
  · intro w h
    have hw : (0 : ℚ) ≤ (w : ℚ) := Nat.cast_nonneg w
    refine ⟨outerRadius_eq w, ?_, ?_, ?_, ringInsideCanvas_iff w h⟩
    · rw [outerRadius_eq]; unfold centerX; linarith
    · rw [outerRadius_eq]; unfold centerX; linarith
    · rw [ringInsideCanvas_iff]
      constructor
      · intro h1
        have h2 : (53 : ℚ) * w ≤ 90 * h := by exact_mod_cast h1
        linarith
      · intro h1
        have h2 : (53 : ℚ) * w ≤ 90 * h := by linarith
        exact_mod_cast h2
  · intro dev hmem w h hw hh
    rw [ringInsideCanvas_iff]
    simp only [devices, List.mem_cons, List.mem_singleton, List.not_mem_nil, or_false] at hmem
    rcases hmem with e | e | e | e | e | e | e | e | e | e | e | e | e | e | e | e | e <;>
      subst e <;> cases hw <;> cases hh <;> decide

/-- C6 amended, on the 1179 x 2556 canvas of the entry "iPhone 15 Pro / 15":
the ring is inside the canvas. -/
theorem ring_inside_canvas_iff_tall_enough_witness :
    ⟨"iPhone 15 Pro / 15", some 1179, some 2556, "iPhone"⟩ ∈ devices ∧
    ringInsideCanvas (1179 : ℕ) (2556 : ℕ) :=
  ⟨by decide,
    (ring_inside_canvas_iff_tall_enough.2 ⟨"iPhone 15 Pro / 15", some 1179, some 2556, "iPhone"⟩
      (by decide) 1179 2556 rfl rfl).2 (by decide)⟩

/-- C7 as stated fails: on 1 January 2025 the impossible dates "2025-02-30"
and "2025-13-01" raise nothing; the generator returns the documents of
2 March 2025 (60 days remaining) and of 1 January 2026 (365 days remaining),
the same as for the goal dates "2025-03-02" and "2026-01-01". -/
theorem impossible_goalDate_rolls_over :
    generateGoalCountdown ⟨2025, 1, 1⟩ (sampleOptions (some "2025-02-30")) =
      Outcome.returns
        (compose (sampleOptions (some "2025-02-30")) (newDate (some 2025) (some 2) (some 2)) 60) ∧
    generateGoalCountdown ⟨2025, 1, 1⟩ (sampleOptions (some "2025-02-30")) =
      generateGoalCountdown ⟨2025, 1, 1⟩ (sampleOptions (some "2025-03-02")) ∧
    generateGoalCountdown ⟨2025, 1, 1⟩ (sampleOptions (some "2025-13-01")) =
      Outcome.returns
        (compose (sampleOptions (some "2025-13-01")) (newDate (some 2026) (some 0) (some 1)) 365) ∧
    generateGoalCountdown ⟨2025, 1, 1⟩ (sampleOptions (some "2025-13-01")) =
      generateGoalCountdown ⟨2025, 1, 1⟩ (sampleOptions (some "2026-01-01")) := by
  have h1 := generateGoalCountdown_of_dates ⟨2025, 1, 1⟩ (sampleOptions (some "2025-02-30"))
    1735689600000 1740873600000 "Launch" (by decide) (by decide) (by decide)
  have h2 := generateGoalCountdown_of_dates ⟨2025, 1, 1⟩ (sampleOptions (some "2025-03-02"))
    1735689600000 1740873600000 "Launch" (by decide) (by decide) (by decide)
  have h3 := generateGoalCountdown_of_dates ⟨2025, 1, 1⟩ (sampleOptions (some "2025-13-01"))
    1735689600000 1767225600000 "Launch" (by decide) (by decide) (by decide)
  have h4 := generateGoalCountdown_of_dates ⟨2025, 1, 1⟩ (sampleOptions (some "2026-01-01"))
    1735689600000 1767225600000 "Launch" (by decide) (by decide) (by decide)
  have e1 : newDate (some 2025) (some 2) (some 2) = some 1740873600000 := by decide
  have e2 : newDate (some 2026) (some 0) (some 1) = some 1767225600000 := by decide
  have d1 : daysRemaining (Day 1740873600000 - Day 1735689600000) = 60 := by decide
  have d2 : daysRemaining (Day 1767225600000 - Day 1735689600000) = 365 := by decide
  rw [d1] at h1 h2
  rw [d2] at h3 h4
  rw [e1, e2]
  exact ⟨h1, by rw [h1, h2]; rfl, h3, by rw [h3, h4]; rfl⟩

/-- C7 amended: the generator does not validate `goalDate` and no outcome of
the call depends on the date being a possible one. For every non-empty
`goalDate` whose first three parts between dashes are strings of digits `y`,
`m`, `d`, with `now` and `new Date(y, m - 1, d)` in the range of time values,
the count is taken from the day number `MakeDay(MakeFullYear(y), m - 1, d)`;
the call returns the document composed from it when `goalName` decodes, and
otherwise ends with the URIError of `decodeURIComponent(goalName)`, the only
error it raises. In that day number a day of the month beyond the month
carries over linearly and twelve months carry into the year. -/
theorem goalDate_is_normalised_not_validated (today : CalendarDate) (o : GoalOptions)
    (s : String) (y m d a b : Int) (hs : o.goalDate = some s) (hne : s ≠ "")
    (hy : field (goalFields s) 0 = some y) (hm : field (goalFields s) 1 = some m)
    (hd : field (goalFields s) 2 = some d) (ha : now today = some a)
    (hb : newDate (some y) (some (m - 1)) (some d) = some b) :
    computeDaysRemaining today o.goalDate = some (max 0 (Day b - Day a)) ∧
    (∀ name, decodeURIComponent (o.goalName.getD "Goal") = some name →
      generateGoalCountdown today o =
        Outcome.returns (compose o (some b) (max 0 (Day b - Day a)))) ∧
    (decodeURIComponent (o.goalName.getD "Goal") = none →
      generateGoalCountdown today o = Outcome.throwsURIError) ∧
    b = MakeDay (MakeFullYear y) (m - 1) d * msPerDay ∧
    (∀ Y M D : Int, MakeDay Y M D = MakeDay Y M 1 + (D - 1)) ∧
    (∀ Y M D : Int, MakeDay Y (M + 12) D = MakeDay (Y + 1) M D) := by
  have ht : targetDate today o.goalDate = some b := by
    rw [hs]
    simp only [targetDate, if_neg hne, hy, hm, hd, Option.map_some', hb]
  refine ⟨computeDaysRemaining_of_dates today o.goalDate a b ha ht,
    fun name hn => generateGoalCountdown_of_dates today o a b name ha ht hn,
    generateGoalCountdown_of_malformed_name today o a b ha ht, ?_, ?_, ?_⟩
  · unfold newDate TimeClip at hb
    simp only at hb
    split_ifs at hb
    exact (Option.some.inj hb).symm
  · intro Y M D
    simp only [MakeDay]; omega
  · intro Y M D
    have h1 : (M + 12) / 12 = M / 12 + 1 := by omega
    have h2 : (M + 12) % 12 = M % 12 := by omega
    simp only [MakeDay, h1, h2]
    rw [show Y + (M / 12 + 1) = Y + 1 + M / 12 by ring]

/-- C7 amended, at `goalDate = "2025-02-30"` on 1 January 2025: the target is
2 March 2025, 60 days ahead, and the call returns its document. -/
theorem goalDate_is_normalised_not_validated_witness :
    field (goalFields "2025-02-30") 0 = some 2025 ∧
    field (goalFields "2025-02-30") 1 = some 2 ∧
    field (goalFields "2025-02-30") 2 = some 30 ∧
    newDate (some 2025) (some (2 - 1)) (some 30) = some 1740873600000 ∧
    decodeURIComponent ((sampleOptions (some "2025-02-30")).goalName.getD "Goal") =
      some "Launch" ∧
    generateGoalCountdown ⟨2025, 1, 1⟩ (sampleOptions (some "2025-02-30")) =
      Outcome.returns (compose (sampleOptions (some "2025-02-30")) (some 1740873600000)
        (max 0 (Day 1740873600000 - Day 1735689600000))) :=
  ⟨by decide, by decide, by decide, by decide, by decide,
    (goalDate_is_normalised_not_validated ⟨2025, 1, 1⟩ (sampleOptions (some "2025-02-30"))
      "2025-02-30" 2025 2 30 1735689600000 1740873600000 rfl (by decide) (by decide)
      (by decide) (by decide) (by decide) (by decide)).2.1 "Launch" (by decide)⟩

/-- C8 fails on the code: when a second call of `initializeWasm` arrives while
the first is suspended at `await initWasm(resvgWasm)` (schedule 0, 1) the flag
is still unset and `initWasm` is invoked twice; the count stays 2 after both
calls have resumed. Only when the first call has returned before the second
arrives (schedule 0, 0, 1) is `initWasm` invoked once. -/
theorem initializeWasm_concurrent_calls_init_twice :
    ((WasmState.fresh 2).run [0, 1]).initWasmCalls = 2 ∧
    ((WasmState.fresh 2).run [0, 1]).wasmInitialized = false ∧
    ((WasmState.fresh 2).run [0, 1, 0, 1]).initWasmCalls = 2 ∧
    ((WasmState.fresh 2).run [0, 0, 1]).initWasmCalls = 1 := by
  decide

end LifeGrid
